import Mathlib

/-!
Shallow embedding of the `webext-messenger` core (src/source/sender.ts:
the caller-side sender/retry machinery and the receiver-side listener
module concatenated after it), together with theorems settling the
frozen claims about it.

JavaScript values are modelled by the inductive `JSValue`; machine
objects are association lists of string keys.  Promises are modelled by
their settled outcome (`Except` of a thrown value / a resolved value).
-/

set_option maxRecDepth 8192

namespace WebextMessenger

/-- A JavaScript value as it travels over the extension message bus. -/
inductive JSValue where
  | undefinedV
  | null
  | bool (b : Bool)
  | num (n : Int)
  | str (s : String)
  | arr (elems : List JSValue)
  | obj (fields : List (String × JSValue))
deriving Repr

/-- Property read `v[k]`: `undefined` on anything that is not an object
with the key. -/
def getField : JSValue → String → JSValue
  | .obj fields, k => ((fields.find? (fun p => p.1 == k)).map Prod.snd).getD .undefinedV
  | _, _ => .undefinedV

/-- Key-presence test, JavaScript's `k in v`. -/
def hasField : JSValue → String → Bool
  | .obj fields, k => (fields.find? (fun p => p.1 == k)).isSome
  | _, _ => false

/-- Modelled from the spec: `isObject` lives in shared.js, which is not
under src/; it recognizes a non-null object value. -/
def isObject : JSValue → Bool
  | .obj _ => true
  | .arr _ => true
  | _ => false

/-- JavaScript truthiness of a value. -/
def truthy : JSValue → Bool
  | .undefinedV => false
  | .null => false
  | .bool b => b
  | .num n => n != 0
  | .str s => s != ""
  | .arr _ => true
  | .obj _ => true

def isString : JSValue → Bool
  | .str _ => true
  | _ => false

def isArray : JSValue → Bool
  | .arr _ => true
  | _ => false

def stringOf : JSValue → String
  | .str s => s
  | _ => ""

def arrayOf : JSValue → List JSValue
  | .arr xs => xs
  | _ => []

/-- JavaScript's strict comparison `v === true`. -/
def isTrue : JSValue → Bool
  | .bool true => true
  | _ => false

/-- sender.ts line 37: the caller-side recognizer of a protocol reply.
It tests the key `__webextMessenger`. -/
def isMessengerResponse (response : JSValue) : Bool :=
  isObject response && isTrue (getField response "__webextMessenger")

/-- Receiver module line 341 (concatenated file numbering): the
receiver-side recognizer of a protocol envelope.  It tests the key
`__webext_messenger__`. -/
def isMessengerMessage (message : JSValue) : Bool :=
  isObject message
    && isString (getField message "type")
    && isTrue (getField message "__webext_messenger__")
    && isArray (getField message "args")

/-- A message target: a document (tab, optional frame) or a named
extension page such as `"background"`. -/
inductive Target where
  | tab (tabId : Int) (frameId : Option Int)
  | page (name : String)
deriving Repr, DecidableEq

/-- JavaScript's `target.page` (undefined on tab targets). -/
def Target.pageName : Target → Option String
  | .page name => some name
  | .tab _ _ => none

/-- JavaScript's `target.tabId` (undefined on page targets). -/
def Target.tabIdOf : Target → Option Int
  | .page _ => none
  | .tab tabId _ => some tabId

/-- JavaScript's `"page" in target`. -/
def Target.isPage : Target → Bool
  | .page _ => true
  | .tab _ _ => false

/-- Call options; `isNotification` is false when the key is absent. -/
structure Options where
  isNotification : Bool := false
deriving Repr, DecidableEq

/-- The serialized form of a target, as `JSON.stringify` renders the
target objects the sender constructs. -/
def stringifyTarget : Target → String
  | .page name => "\x7b\"page\":\"" ++ name ++ "\"\x7d"
  | .tab tabId none => "\x7b\"tabId\":" ++ toString tabId ++ "\x7d"
  | .tab tabId (some f) =>
      "\x7b\"tabId\":" ++ toString tabId ++ ",\"frameId\":" ++ toString f ++ "\x7d"

def encodeTarget : Target → JSValue
  | .page name => .obj [("page", .str name)]
  | .tab tabId none => .obj [("tabId", .num tabId)]
  | .tab tabId (some f) => .obj [("tabId", .num tabId), ("frameId", .num f)]

def encodeOptions (o : Options) : JSValue :=
  .obj [("isNotification", .bool o.isNotification)]

/-- sender.ts line 45, `makeMessage`: the envelope the caller puts on
the bus, tagged with the key `__webextMessenger` (value `true`, the
constant exported by shared.js per the spec's wire format). -/
def makeMessage (ty : String) (args : List JSValue) (target : Target)
    (options : Options) : JSValue :=
  .obj [("__webextMessenger", .bool true),
        ("type", .str ty),
        ("args", .arr args),
        ("target", encodeTarget target),
        ("options", encodeOptions options)]

/-- An error value thrown by the messenger machinery: whether it is a
`MessengerError` (versus a plain `Error`), and its message. -/
structure JsError where
  isMessengerError : Bool
  message : String
deriving Repr, DecidableEq

/-- sender.ts line 26. -/
def _errorNonExistingTarget : String :=
  "Could not establish connection. Receiving end does not exist."

/-- sender.ts line 30. -/
def _errorTargetClosedEarly : String :=
  "A listener indicated an asynchronous response by returning true, but the message channel closed before a response was received"

/-- sender.ts line 33. -/
def errorTargetClosedEarly : String :=
  "The target was closed before receiving a response"

/-- sender.ts line 35. -/
def errorTabDoesntExist : String := "The tab doesn't exist"

/-- Per-invocation metadata handed to a local handler (`this` binding):
the chain of senders the call traversed. -/
structure MessengerMeta where
  trace : List JSValue

/-- A registered method: invoked with the meta and the argument list, its
promise settles with a value or a thrown error value. -/
def Method : Type := MessengerMeta → List JSValue → Except JSValue JSValue

/-- Modelled from the spec: `serializeError` is an external collaborator
(the serialize-error package); serialization is lossless, so it is the
identity on the error value here. -/
def serializeError (e : JSValue) : JSValue := e

/-- Modelled from the spec: `deserializeError` is the external inverse
of `serializeError`; with lossless serialization it is the identity. -/
def deserializeError (e : JSValue) : JSValue := e

/-- The settled outcome of one `sendMessage(attempt)` call on the host
bus: the promise resolved with a value or rejected with an error. -/
inductive BusOutcome where
  | resolved (v : JSValue)
  | rejected (e : JsError)

/-- Which host delivery primitive the sender picked. -/
inductive SendChannel where
  | runtime
  | tab (tabId : Int) (frameId : Int)
deriving Repr, DecidableEq

/-- The environment a `messenger` call runs in: which context this is,
whether `browser.tabs` exists, the local handler registry, the host
liveness query, the bus, and the retry budget (the spec's 4000-time-unit
exponential-backoff ceiling, abstracted as the number of retries it
still allows). -/
structure Env where
  isBackground : Bool
  browserTabs : Bool
  handlers : List (String × Method)
  tabExists : Int → Bool
  bus : SendChannel → JSValue → Nat → BusOutcome
  retryBudget : Nat

/-- A failure surfaced by a call: a machinery error (`JsError`) or a
deserialized application error thrown by the remote handler. -/
inductive Failure where
  | err (e : JsError)
  | appError (e : JSValue)

/-- What a `messenger(...)` invocation does for its caller. -/
inductive CallResult where
  | notificationFired
  | value (v : JSValue)
  | failure (f : Failure)
  | thrown (e : JsError)

/-- sender.ts lines 83-116, the body of one retry attempt after
`sendMessage` resolved: a recognized `MessengerResponse` is returned; an
`undefined` reply throws "was not found" (page target) or "Messenger
was not available" (tab target); any other value throws the Conflict
error. -/
def attemptClassify (ty : String) (target : Target) (v : JSValue) :
    Except JsError JSValue :=
  if isMessengerResponse v then
    .ok v
  else
    match v with
    | .undefinedV =>
        if target.isPage then
          .error ⟨true, "The target " ++ stringifyTarget target ++ " for "
            ++ ty ++ " was not found"⟩
        else
          .error ⟨true, "Messenger was not available in the target "
            ++ stringifyTarget target ++ " for " ++ ty⟩
    | _ =>
        .error ⟨true, "Conflict: The message " ++ ty
          ++ " was handled by a third-party listener"⟩

/-- sender.ts lines 122-147, `onFailedAttempt`: `some e` means the
retry loop aborts by throwing `e`; `none` means fall through and retry.
The channel-closed-early host string aborts with the public message;
a `MessengerError` against a non-background target, the
receiving-end-does-not-exist host string, and the "No handlers
registered in " prefix are retryable, except that a numeric-tab target
whose tab no longer exists aborts with `errorTabDoesntExist`; every
other error aborts by rethrowing itself. -/
def onFailedAttempt (target : Target) (browserTabs : Bool)
    (tabExists : Int → Bool) (e : JsError) : Option JsError :=
  if e.message == _errorTargetClosedEarly then
    some ⟨false, errorTargetClosedEarly⟩
  else if (target.pageName != some "background" && e.isMessengerError)
      || e.message == _errorNonExistingTarget
      || e.message.startsWith "No handlers registered in " then
    if browserTabs && target.tabIdOf.isSome
        && !(tabExists (target.tabIdOf.getD 0)) then
      some ⟨false, errorTabDoesntExist⟩
    else
      none
  else
    some e

/-- The `pRetry` loop of sender.ts lines 81-148: run the attempt; on an
`ok` stop; on a failure consult `onFailedAttempt` (a throw there aborts
the loop with that error); otherwise retry while backoff budget
remains, and propagate the last failure once it is exhausted.  `fuel`
abstracts the 4000-time-unit exponential-backoff ceiling. -/
def retryLoop (ty : String) (target : Target) (browserTabs : Bool)
    (tabExists : Int → Bool) (send : Nat → BusOutcome) :
    Nat → Nat → Except JsError JSValue
  | attempt, fuel =>
    let attemptResult : Except JsError JSValue :=
      match send attempt with
      | .resolved v => attemptClassify ty target v
      | .rejected e => .error e
    match attemptResult with
    | .ok r => .ok r
    | .error e =>
      match onFailedAttempt target browserTabs tabExists e with
      | some e' => .error e'
      | none =>
        match fuel with
        | 0 => .error e
        | Nat.succ fuel' =>
            retryLoop ty target browserTabs tabExists send (attempt + 1) fuel'

/-- sender.ts lines 76-166, `manageMessage`: the retry loop, then the
`.catch` translating the raw receiving-end-does-not-exist host string
into the "was not found" `MessengerError`, then unwrapping the
`MessengerResponse`: an `error` field is deserialized and thrown,
otherwise the `value` field is the call's result. -/
def manageMessage (ty : String) (target : Target) (env : Env)
    (send : Nat → BusOutcome) : Except Failure JSValue :=
  match retryLoop ty target env.browserTabs env.tabExists send 1
      env.retryBudget with
  | .error e =>
      if e.message == _errorNonExistingTarget then
        .error (.err ⟨true, "The target " ++ stringifyTarget target
          ++ " for " ++ ty ++ " was not found"⟩)
      else
        .error (.err e)
  | .ok response =>
      if hasField response "error" then
        .error (.appError (deserializeError (getField response "error")))
      else
        .ok (getField response "value")

/-- sender.ts lines 61-74, `manageConnection`: a non-notification call
awaits `manageMessage`; a notification fires `sendMessage(1)` once,
discards the promise and only logs a rejection. -/
def manageConnection (ty : String) (options : Options) (target : Target)
    (env : Env) (send : Nat → BusOutcome) : CallResult :=
  if !options.isNotification then
    match manageMessage ty target env send with
    | .ok v => .value v
    | .error f => .failure f
  else
    .notificationFired

/-- sender.ts lines 187-260, `messenger`: a page target named
"background" from within the background context is served from the
local registry (throwing a `MessengerError` when no handler is
registered); any other page target, and tab targets from a context
without `browser.tabs`, go over the runtime channel; tab targets
otherwise go over the tab channel with `frameId` defaulted to 0. -/
def messenger (ty : String) (options : Options) (target : Target)
    (args : List JSValue) (env : Env) : CallResult :=
  match target with
  | .page name =>
      if name == "background" && env.isBackground then
        match env.handlers.find? (fun p => p.1 == ty) with
        | some p =>
            match p.2 ⟨[]⟩ args with
            | .ok v => .value v
            | .error e => .failure (.appError e)
        | none => .thrown ⟨true, "No handler registered locally for " ++ ty⟩
      else
        manageConnection ty options target env
          (fun attempt => env.bus .runtime (makeMessage ty args target options) attempt)
  | .tab tabId frameId? =>
      if !env.browserTabs then
        manageConnection ty options target env
          (fun attempt => env.bus .runtime (makeMessage ty args target options) attempt)
      else
        manageConnection ty options target env
          (fun attempt =>
            env.bus (.tab tabId (frameId?.getD 0))
              (makeMessage ty args target options) attempt)

mutual

/-- `JSON.stringify` of a value, as the receiver renders a forward
target into its error message (escaping fidelity is not modelled). -/
def jsonStringify : JSValue → String
  | .undefinedV => "undefined"
  | .null => "null"
  | .bool b => if b then "true" else "false"
  | .num n => toString n
  | .str s => "\"" ++ s ++ "\""
  | .arr xs => "[" ++ jsonStringifyArr xs ++ "]"
  | .obj fs => "\x7b" ++ jsonStringifyObj fs ++ "\x7d"

def jsonStringifyArr : List JSValue → String
  | [] => ""
  | [v] => jsonStringify v
  | v :: rest => jsonStringify v ++ "," ++ jsonStringifyArr rest

def jsonStringifyObj : List (String × JSValue) → String
  | [] => ""
  | [(k, v)] => "\"" ++ k ++ "\":" ++ jsonStringify v
  | (k, v) :: rest =>
      "\"" ++ k ++ "\":" ++ jsonStringify v ++ "," ++ jsonStringifyObj rest

end

/-- Receiver module lines 390-403: the listener's eventual answer.  The
handled promise's outcome is folded into `\x7bvalue\x7d` on success or
`\x7berror: serializeError(error)\x7d` on failure, and the receiver-side
protocol tag key `__webext_messenger__` is attached. -/
def wireResponse (outcome : Except JSValue JSValue) : JSValue :=
  match outcome with
  | .ok v => .obj [("value", v), ("__webext_messenger__", .bool true)]
  | .error e =>
      .obj [("error", serializeError e), ("__webext_messenger__", .bool true)]

/-- A `messenger` invocation as data: the method name, the bound
options, the raw target value and the argument list. -/
structure Call where
  type : String
  options : Options
  target : JSValue
  args : List JSValue

/-- Modelled from the spec: `getContentScriptMethod`, the binding sugar
the receiver forwards through, is imported from sender.js but not
defined in the given source; per the spec's forward rule it re-issues
the call as a new outbound call, and like the source's one-argument
`getMethod` (sender.ts line 282) it binds `messenger` to the method
name and the empty options object. -/
def getContentScriptMethod (ty : String) (target : JSValue)
    (args : List JSValue) : Call :=
  ⟨ty, ⟨false⟩, target, args⟩

/-- What the receiver's listener does with one incoming payload. -/
inductive ListenerResult where
  | ignored
  | threw (e : JsError)
  | responds (response : JSValue)

/-- Receiver module lines 351-404, `onMessageListener`: a payload that
is not a protocol envelope is ignored; an envelope with a truthy
`target` is forwarded (throwing a `MessengerError` synchronously when
`browser.tabs` is unavailable) by re-issuing the call through
`getContentScriptMethod`; an envelope without a target is dispatched to
the local handler, or ignored when none is registered; either handled
path's outcome is folded into a tagged wire response.  `outbound` is
the semantics of executing the forwarded `messenger` call. -/
def onMessageListener (handlers : List (String × Method))
    (browserTabs : Bool) (outbound : Call → Except JSValue JSValue)
    (sender : JSValue) (message : JSValue) : ListenerResult :=
  if !isMessengerMessage message then
    .ignored
  else
    let ty := stringOf (getField message "type")
    let target := getField message "target"
    let args := arrayOf (getField message "args")
    if truthy target then
      if !browserTabs then
        .threw ⟨true, "Message " ++ ty
          ++ " sent to wrong context, it can't be forwarded to "
          ++ jsonStringify target⟩
      else
        .responds (wireResponse (outbound (getContentScriptMethod ty target args)))
    else
      match handlers.find? (fun p => p.1 == ty) with
      | none => .ignored
      | some p => .responds (wireResponse (p.2 ⟨[sender]⟩ args))

/-- Receiver module lines 406-414, `registerMethods`: walk the given
methods in order; a name already present in the registry throws the
"Handler already set for" `MessengerError` (leaving the registry as
mutated so far), otherwise the mapping is stored.  The result pairs the
outcome with the registry after the call, since `handlers` is a
process-wide `Map` mutated in place. -/
def registerMethods (handlers : List (String × Method)) :
    List (String × Method) → (Except JsError Unit) × List (String × Method)
  | [] => (.ok (), handlers)
  | (ty, m) :: rest =>
      if (handlers.find? (fun p => p.1 == ty)).isSome then
        (.error ⟨true, "Handler already set for " ++ ty⟩, handlers)
      else
        registerMethods (handlers ++ [(ty, m)]) rest

/-! Theorems settling the claims. -/

/-- C1: the claim says every `WireResponse` produced by the receiver
carries the protocol tag the caller-side recognizer tests for, so a
genuine reply is classified as a protocol response and never as a
conflict.  In this source the receiver attaches the key
`__webext_messenger__` while `isMessengerResponse` tests the key
`__webextMessenger`: the receiver's genuine reply fails the caller's
recognizer and is classified as a third-party conflict, and the
caller's envelope likewise fails the receiver-side envelope test, so
the claimed round trip cannot occur on this code as assembled. -/
theorem C1_protocol_tag_mismatch :
    isMessengerResponse (wireResponse (.ok (.num 7))) = false
    ∧ attemptClassify "ping" (Target.tab 1 none) (wireResponse (.ok (.num 7)))
      = .error ⟨true,
          "Conflict: The message ping was handled by a third-party listener"⟩
    ∧ isMessengerMessage (makeMessage "ping" [] (Target.tab 1 none) ⟨false⟩)
      = false :=
  ⟨rfl, rfl, rfl⟩

/-- C2 counterexample: a notification call addressed to the background
page from within the background context, with no handler registered,
throws a synchronous `MessengerError` to the caller, so the claim that
no exception is ever thrown to the caller of a notification is false. -/
theorem C2_background_notification_throws :
    messenger "ping" ⟨true⟩ (Target.page "background") []
      ⟨true, true, [], fun _ => true, fun _ _ _ => .resolved .undefinedV, 0⟩
      = .thrown ⟨true, "No handler registered locally for ping"⟩ :=
  rfl

/-- C2 (amended): for every notification call that actually goes over
the bus — that is, unless the target is the background page addressed
from within the background context, where the bus is bypassed — the
calling code's promise never rejects and nothing is thrown: the call
returns void, the envelope is fired once and a failure is only
logged. -/
theorem C2_notification_never_rejects (ty : String) (target : Target)
    (args : List JSValue) (env : Env)
    (h : target.pageName = some "background" → env.isBackground = false) :
    messenger ty ⟨true⟩ target args env = .notificationFired := by
  cases target with
  | page name =>
      by_cases hn : name = "background"
      · subst hn
        have hb : env.isBackground = false := h rfl
        simp [messenger, hb, manageConnection]
      · simp [messenger, hn, manageConnection]
  | tab tabId frameId =>
      by_cases ht : env.browserTabs <;>
        simp [messenger, ht, manageConnection]

/-- C2 witness: a notification to a tab whose delivery rejects still
returns void to the caller. -/
theorem C2_notification_never_rejects_witness :
    messenger "ping" ⟨true⟩ (Target.tab 1 none) []
      ⟨false, true, [], fun _ => true, fun _ _ _ => .rejected ⟨false, "boom"⟩, 3⟩
      = .notificationFired :=
  C2_notification_never_rejects "ping" (Target.tab 1 none) []
    ⟨false, true, [], fun _ => true, fun _ _ _ => .rejected ⟨false, "boom"⟩, 3⟩
    (fun _ => rfl)

/-- C3 counterexample: a failure that is neither a recognized transient
host string nor a `MessengerError`, against the named background page,
propagates immediately — `onFailedAttempt` rethrows it and the retry
loop ends with it even though a later attempt would have succeeded —
whereas the claim says such failures are still retried for the
background page. -/
theorem C3_background_generic_failure_not_retried :
    onFailedAttempt (Target.page "background") true (fun _ => true)
      ⟨false, "boom"⟩ = some ⟨false, "boom"⟩
    ∧ manageMessage "ping" (Target.page "background")
        ⟨false, true, [], fun _ => true, fun _ _ _ => .resolved .undefinedV, 5⟩
        (fun attempt => if attempt == 1 then .rejected ⟨false, "boom"⟩
          else .resolved (.obj [("value", .num 7), ("__webextMessenger", .bool true)]))
      = .error (.err ⟨false, "boom"⟩) :=
  ⟨rfl, rfl⟩

/-- C3 (amended): in the retry loop, a failure that is neither a
recognized transient host string nor a `MessengerError` propagates
immediately for every target, including the named background page; the
background-page exception runs the other way around: `MessengerError`
failures, retried for every other target, also propagate immediately
when the target is the background page. -/
theorem C3_nonretryable_propagation (target : Target) (tabs : Bool)
    (te : Int → Bool) (e : JsError)
    (hclosed : e.message ≠ _errorTargetClosedEarly)
    (hne : e.message ≠ _errorNonExistingTarget)
    (hpre : ¬ e.message.startsWith "No handlers registered in ") :
    (e.isMessengerError = false → onFailedAttempt target tabs te e = some e)
    ∧ (target.pageName = some "background" →
        onFailedAttempt target tabs te e = some e) := by
  have h1 : (e.message == _errorTargetClosedEarly) = false := by
    simp [hclosed]
  have h2 : (e.message == _errorNonExistingTarget) = false := by
    simp [hne]
  have h3 : e.message.startsWith "No handlers registered in " = false := by
    simp [hpre]
  constructor
  · intro hm
    simp [onFailedAttempt, h1, h2, h3, hm]
  · intro hp
    simp [onFailedAttempt, h1, h2, h3, hp]

/-- C3 witness: a `MessengerError` that matches no transient string,
addressed to the background page, is rethrown unchanged. -/
theorem C3_nonretryable_propagation_witness :
    onFailedAttempt (Target.page "background") false (fun _ => true)
      ⟨true, "some application failure"⟩
      = some ⟨true, "some application failure"⟩ :=
  (C3_nonretryable_propagation (Target.page "background") false (fun _ => true)
    ⟨true, "some application failure"⟩ (by decide) (by decide) (by decide)).2
    rfl

/-- C4: when the target is the background page and the current context
is the background context, `messenger` bypasses the bus entirely — the
result depends only on the local handler registry, never on the bus,
the liveness query or the retry budget: a registered handler is invoked
directly with an empty trace, and a missing handler throws the
handler-not-found `MessengerError` synchronously. -/
theorem C4_background_local_dispatch (ty : String) (options : Options)
    (args : List JSValue) (tabs : Bool) (handlers : List (String × Method))
    (te : Int → Bool) (bus : SendChannel → JSValue → Nat → BusOutcome)
    (budget : Nat) :
    (∀ m, handlers.find? (fun p => p.1 == ty) = some m →
      messenger ty options (Target.page "background") args
          ⟨true, tabs, handlers, te, bus, budget⟩
        = match m.2 ⟨[]⟩ args with
          | .ok v => .value v
          | .error e => .failure (.appError e))
    ∧ (handlers.find? (fun p => p.1 == ty) = none →
      messenger ty options (Target.page "background") args
          ⟨true, tabs, handlers, te, bus, budget⟩
        = .thrown ⟨true, "No handler registered locally for " ++ ty⟩) := by
  constructor
  · intro m hm
    simp [messenger, hm]
  · intro hm
    simp [messenger, hm]

/-- C4 witness: in the background context a registered handler serves a
background-page call locally, returning its value. -/
theorem C4_background_local_dispatch_witness :
    messenger "ping" ⟨false⟩ (Target.page "background") [JSValue.num 1]
      ⟨true, false, [("ping", fun _ args => .ok (.arr args))], fun _ => true,
        fun _ _ _ => .resolved .undefinedV, 0⟩
      = .value (.arr [JSValue.num 1]) :=
  (C4_background_local_dispatch "ping" ⟨false⟩ [JSValue.num 1] false
      [("ping", fun _ args => .ok (.arr args))] (fun _ => true)
      (fun _ _ _ => .resolved .undefinedV) 0).1
    ("ping", fun _ args => .ok (.arr args)) rfl

/-- C5 counterexample: the conflict error produced when a third-party
listener answers is not non-retryable — for a tab target whose tab is
alive, `onFailedAttempt` falls through (`none`) and the loop retries
it, because it is a `MessengerError` and the target is not the
background page. -/
theorem C5_conflict_is_retried :
    attemptClassify "ping" (Target.tab 1 none) (.num 3)
      = .error ⟨true,
          "Conflict: The message ping was handled by a third-party listener"⟩
    ∧ onFailedAttempt (Target.tab 1 none) true (fun _ => true)
        ⟨true, "Conflict: The message ping was handled by a third-party listener"⟩
      = none :=
  ⟨rfl, rfl⟩

/-- C5 (amended): each delivery attempt's result is classified into
exactly three outcomes — a value recognized as a `MessengerResponse`
ends the loop successfully; `undefined` fails with "was not found" for
a page target and "Messenger was not available in the target"
otherwise; any other value fails with the conflict error, never a
successful result, even if its shape coincidentally matches a valid
value — but the conflict error is a `MessengerError`, which the retry
policy retries for non-background targets rather than treating as
non-retryable. -/
theorem C5_attempt_classification (ty : String) (target : Target)
    (v : JSValue) :
    (isMessengerResponse v = true → attemptClassify ty target v = .ok v)
    ∧ (v = .undefinedV → target.isPage = true →
        attemptClassify ty target v
          = .error ⟨true, "The target " ++ stringifyTarget target ++ " for "
              ++ ty ++ " was not found"⟩)
    ∧ (v = .undefinedV → target.isPage = false →
        attemptClassify ty target v
          = .error ⟨true, "Messenger was not available in the target "
              ++ stringifyTarget target ++ " for " ++ ty⟩)
    ∧ (isMessengerResponse v = false → v ≠ .undefinedV →
        attemptClassify ty target v
          = .error ⟨true, "Conflict: The message " ++ ty
              ++ " was handled by a third-party listener"⟩)
    ∧ (∀ te : Int → Bool, ∀ e : JsError, e.isMessengerError = true →
        e.message ≠ _errorTargetClosedEarly →
        target.pageName ≠ some "background" →
        onFailedAttempt target false te e = none) := by
  refine ⟨?_, ?_, ?_, ?_, ?_⟩
  · intro hr
    simp [attemptClassify, hr]
  · intro hv hp
    subst hv
    simp [attemptClassify, isMessengerResponse, isObject, hp]
  · intro hv hp
    subst hv
    simp [attemptClassify, isMessengerResponse, isObject, hp]
  · intro hr hv
    cases v <;>
      first
        | exact absurd rfl hv
        | simp [attemptClassify, hr]
  · intro te e hm hclosed hbg
    have h1 : (e.message == _errorTargetClosedEarly) = false := by
      simp [hclosed]
    have h2 : (target.pageName != some "background") = true := by
      simp [hbg]
    simp [onFailedAttempt, h1, h2, hm]

/-- C5 witness: an untagged value that is not `undefined` — even one
shaped like a plausible payload — is classified as the conflict
error. -/
theorem C5_attempt_classification_witness :
    attemptClassify "ping" (Target.tab 2 none) (.obj [("value", .num 5)])
      = .error ⟨true,
          "Conflict: The message ping was handled by a third-party listener"⟩ :=
  (C5_attempt_classification "ping" (Target.tab 2 none)
      (.obj [("value", .num 5)])).2.2.2.1
    rfl (fun h => JSValue.noConfusion h)

/-- C6: before retrying a retryable failure against a numeric tab
target with tab addressing available, the liveness query is consulted;
a dead tab makes `onFailedAttempt` throw the "The tab doesn't exist"
error, and the retry loop ends with it at once, for every remaining
retry budget, instead of retrying. -/
theorem C6_dead_tab_aborts_retry (ty : String) (tabId : Int)
    (fr : Option Int) (te : Int → Bool) (e : JsError)
    (send : Nat → BusOutcome) (budget : Nat)
    (hdead : te tabId = false)
    (hclosed : e.message ≠ _errorTargetClosedEarly)
    (hretry : e.isMessengerError = true
      ∨ e.message = _errorNonExistingTarget
      ∨ e.message.startsWith "No handlers registered in " = true)
    (hsend : send 1 = .rejected e) :
    onFailedAttempt (Target.tab tabId fr) true te e
      = some ⟨false, errorTabDoesntExist⟩
    ∧ retryLoop ty (Target.tab tabId fr) true te send 1 budget
      = .error ⟨false, errorTabDoesntExist⟩ := by
  have h1 : (e.message == _errorTargetClosedEarly) = false := by
    simp [hclosed]
  have h2 : (_errorNonExistingTarget == _errorTargetClosedEarly) = false := by
    decide
  have hofa : onFailedAttempt (Target.tab tabId fr) true te e
      = some ⟨false, errorTabDoesntExist⟩ := by
    rcases hretry with h | h | h <;>
      simp [onFailedAttempt, h1, h2, h, Target.pageName, Target.tabIdOf, hdead]
  refine ⟨hofa, ?_⟩
  cases budget with
  | zero => simp [retryLoop, hsend, hofa]
  | succ b => simp [retryLoop, hsend, hofa]

/-- C6 witness: a receiving-end-does-not-exist failure against tab 7,
whose tab is gone, ends the loop with the tab-does-not-exist error. -/
theorem C6_dead_tab_aborts_retry_witness :
    retryLoop "ping" (Target.tab 7 none) true (fun _ => false)
      (fun _ => .rejected ⟨false, _errorNonExistingTarget⟩) 1 9
      = .error ⟨false, errorTabDoesntExist⟩ :=
  (C6_dead_tab_aborts_retry "ping" 7 none (fun _ => false)
      ⟨false, _errorNonExistingTarget⟩
      (fun _ => .rejected ⟨false, _errorNonExistingTarget⟩) 9
      rfl (by decide) (Or.inr (Or.inl rfl)) rfl).2

/-- C7: an incoming envelope that carries a truthy target is a forward:
in a context without `browser.tabs` the listener synchronously throws a
`MessengerError` (it neither hangs nor retries), and in a context
capable of forwarding it re-issues the call to that target with the
same method name and arguments through the bound outbound call and
relays its result or error as the tagged wire response. -/
theorem C7_forward_or_config_error (handlers : List (String × Method))
    (outbound : Call → Except JSValue JSValue) (sender message : JSValue)
    (hmsg : isMessengerMessage message = true)
    (htgt : truthy (getField message "target") = true) :
    (onMessageListener handlers false outbound sender message
      = .threw ⟨true, "Message " ++ stringOf (getField message "type")
          ++ " sent to wrong context, it can't be forwarded to "
          ++ jsonStringify (getField message "target")⟩)
    ∧ (onMessageListener handlers true outbound sender message
      = .responds (wireResponse (outbound
          ⟨stringOf (getField message "type"), ⟨false⟩,
            getField message "target",
            arrayOf (getField message "args")⟩))) := by
  constructor <;>
    simp [onMessageListener, hmsg, htgt, getContentScriptMethod]

/-- C7 witness: a forwarding-capable context relays the outbound
result of a targeted envelope as a tagged success response. -/
theorem C7_forward_or_config_error_witness :
    onMessageListener [] true (fun _ => .ok (.num 5)) .null
      (.obj [("type", .str "ping"), ("__webext_messenger__", .bool true),
             ("args", .arr []), ("target", .obj [("tabId", .num 1)])])
      = .responds (wireResponse (.ok (.num 5))) :=
  (C7_forward_or_config_error [] (fun _ => .ok (.num 5)) .null
      (.obj [("type", .str "ping"), ("__webext_messenger__", .bool true),
             ("args", .arr []), ("target", .obj [("tabId", .num 1)])])
      rfl rfl).2

/-- Registrations never displace an existing entry: whatever
`registerMethods` does afterwards, a lookup that succeeded before the
call still returns the same entry. -/
theorem registerMethods_find_preserved (p : String × Method → Bool)
    (x : String × Method) :
    ∀ (ms handlers : List (String × Method)), handlers.find? p = some x →
      ((registerMethods handlers ms).2).find? p = some x := by
  intro ms
  induction ms with
  | nil => intro handlers h; simpa [registerMethods] using h
  | cons hd tl ih =>
      intro handlers h
      obtain ⟨a, f⟩ := hd
      cases hfind : handlers.find? (fun q => q.1 == a) with
      | some y => simpa [registerMethods, hfind] using h
      | none =>
          have happ : (handlers ++ [(a, f)]).find? p = some x := by
            rw [List.find?_append, h]; rfl
          simpa [registerMethods, hfind] using ih (handlers ++ [(a, f)]) happ

/-- Registration preserves key uniqueness: starting from a registry
with pairwise-distinct method names, the registry after any
`registerMethods` call still has pairwise-distinct method names. -/
theorem registerMethods_keys_nodup :
    ∀ (ms handlers : List (String × Method)),
      (handlers.map Prod.fst).Nodup →
      (((registerMethods handlers ms).2).map Prod.fst).Nodup := by
  intro ms
  induction ms with
  | nil => intro handlers h; simpa [registerMethods] using h
  | cons hd tl ih =>
      intro handlers h
      obtain ⟨a, f⟩ := hd
      cases hfind : handlers.find? (fun q => q.1 == a) with
      | some y => simpa [registerMethods, hfind] using h
      | none =>
          have hnotin : a ∉ handlers.map Prod.fst := by
            intro hmem
            obtain ⟨q, hq, hq2⟩ := List.mem_map.mp hmem
            have hq3 := List.find?_eq_none.mp hfind q hq
            simp [hq2] at hq3
          have hkeys : ((handlers ++ [(a, f)]).map Prod.fst).Nodup := by
            rw [List.map_append]
            refine List.Nodup.append h (List.nodup_singleton a) ?_
            intro x hx hxa
            simp at hxa
            subst hxa
            exact hnotin hx
          simpa [registerMethods, hfind] using ih (handlers ++ [(a, f)]) hkeys

/-- C8: registering a method name that is already present fails
synchronously with the "Handler already set for" `MessengerError`, the
registry is left exactly as it was, the previously registered handler
for that name survives every `registerMethods` call unchanged, and
method names stay pairwise distinct, so at most one handler entry
exists per name at any time. -/
theorem C8_duplicate_registration (handlers ms : List (String × Method))
    (ty : String) (h0 m : Method)
    (hreg : handlers.find? (fun p => p.1 == ty) = some (ty, h0))
    (hnodup : (handlers.map Prod.fst).Nodup) :
    registerMethods handlers ((ty, m) :: ms)
      = (.error ⟨true, "Handler already set for " ++ ty⟩, handlers)
    ∧ (∀ ms2, ((registerMethods handlers ms2).2).find? (fun p => p.1 == ty)
        = some (ty, h0))
    ∧ ∀ ms2, (((registerMethods handlers ms2).2).map Prod.fst).Nodup := by
  refine ⟨?_, ?_, ?_⟩
  · simp [registerMethods, hreg]
  · intro ms2
    exact registerMethods_find_preserved _ _ ms2 handlers hreg
  · intro ms2
    exact registerMethods_keys_nodup ms2 handlers hnodup

/-- C8 witness: re-registering "ping" fails with the configuration
error and leaves the one-entry registry untouched. -/
theorem C8_duplicate_registration_witness :
    registerMethods
        [("ping", fun _ _ => Except.ok (JSValue.num 1))]
        [("ping", fun _ _ => Except.ok (JSValue.num 2))]
      = (.error ⟨true, "Handler already set for ping"⟩,
          [("ping", fun _ _ => Except.ok (JSValue.num 1))]) :=
  (C8_duplicate_registration
      [("ping", fun _ _ => Except.ok (JSValue.num 1))] []
      "ping" (fun _ _ => Except.ok (JSValue.num 1))
      (fun _ _ => Except.ok (JSValue.num 2)) rfl (by simp)).1

/-- C9: a payload that is not a protocol envelope — missing tag,
non-string type or non-array args — is ignored by the listener, which
returns nothing, answers nothing and throws nothing; likewise a
well-formed envelope without a target whose method name has no
registered local handler. -/
theorem C9_listener_ignores_silently (handlers : List (String × Method))
    (tabs : Bool) (outbound : Call → Except JSValue JSValue)
    (sender message : JSValue) :
    (isMessengerMessage message = false →
      onMessageListener handlers tabs outbound sender message = .ignored)
    ∧ (isMessengerMessage message = true →
      truthy (getField message "target") = false →
      handlers.find?
          (fun p => p.1 == stringOf (getField message "type")) = none →
      onMessageListener handlers tabs outbound sender message = .ignored) := by
  constructor
  · intro h
    simp [onMessageListener, h]
  · intro h ht hh
    simp [onMessageListener, h, ht, hh]

/-- C9 witness: an unrelated bus message (a bare number) is ignored. -/
theorem C9_listener_ignores_silently_witness :
    onMessageListener [] true (fun _ => .ok .undefinedV) .null (.num 1)
      = .ignored :=
  (C9_listener_ignores_silently [] true (fun _ => .ok .undefinedV) .null
      (.num 1)).1 rfl

/-- C10: forwarding passes only the method name, the target and the
arguments to the new outbound call — the envelope's own options field
(here an arbitrary value `opts`) is dropped, the re-issued call is
bound with the empty options, and a call with empty options always
takes the awaited request/response path, never the fire-and-forget
notification path. -/
theorem C10_forward_drops_options (handlers : List (String × Method))
    (outbound : Call → Except JSValue JSValue) (sender : JSValue)
    (ty : String) (args : List JSValue) (tgtVal opts : JSValue)
    (htgt : truthy tgtVal = true) :
    onMessageListener handlers true outbound sender
      (.obj [("__webext_messenger__", .bool true), ("type", .str ty),
             ("args", .arr args), ("target", tgtVal), ("options", opts)])
      = .responds (wireResponse (outbound ⟨ty, ⟨false⟩, tgtVal, args⟩))
    ∧ ∀ (target : Target) (env : Env) (send : Nat → BusOutcome),
        manageConnection ty ⟨false⟩ target env send ≠ .notificationFired := by
  constructor
  · have hm : isMessengerMessage
        (.obj [("__webext_messenger__", .bool true), ("type", .str ty),
               ("args", .arr args), ("target", tgtVal), ("options", opts)])
        = true := rfl
    simp [onMessageListener, hm, getField, htgt, getContentScriptMethod,
      stringOf, arrayOf]
  · intro target env send
    cases h : manageMessage ty target env send <;>
      simp [manageConnection, h]

/-- C10 witness: an envelope explicitly marked as a notification in its
options field is still forwarded as a request/response call with empty
options. -/
theorem C10_forward_drops_options_witness :
    onMessageListener [] true (fun _ => .ok (.num 9)) .null
      (.obj [("__webext_messenger__", .bool true), ("type", .str "ping"),
             ("args", .arr []), ("target", .obj [("tabId", .num 4)]),
             ("options", .obj [("isNotification", .bool true)])])
      = .responds (wireResponse (.ok (.num 9))) :=
  (C10_forward_drops_options [] (fun _ => .ok (.num 9)) .null "ping" []
      (.obj [("tabId", .num 4)]) (.obj [("isNotification", .bool true)])
      rfl).1

end WebextMessenger
